import Mathlib

/-!
Verification development for the client-side image transform application
(`src/app`, `src/components/ImageProcessor.tsx`).  The UI layer is embedded
directly from `src/components/ImageProcessor.tsx`; the transform pipeline
(`src/lib/processImage.ts`) is not part of the shipped sources, so its four
stages — decoder, geometry resolver, resampler, encoder — are modelled from
the specification and clearly marked as such.

Numbers: JavaScript arithmetic on pixel coordinates, dimensions and quality
values is modelled over `ℚ` (all values arising here are exact in binary
floating point at the sizes involved, and the spec describes exact rational
scale factors `sx = targetWidth / cropWidth`); `Math.round` is `round`
(`⌊x + 1/2⌋`, which agrees with JavaScript on all inputs used here).
-/

namespace ImgPipe

/-- Output formats offered by the UI and accepted by the pipeline. -/
inductive OutputFormat
  | jpeg
  | png
  | webp
  | pdf
  deriving DecidableEq, Repr

/-- Modelled from the spec: an RGBA pixel.  Source channels are 8-bit values
0..255; interpolation happens on rational channel values. -/
structure Pixel where
  r : ℚ
  g : ℚ
  b : ℚ
  a : ℚ
  deriving DecidableEq, Repr

instance : Inhabited Pixel := ⟨⟨0, 0, 0, 0⟩⟩

/-- Modelled from the spec: a raster surface — width, height and a row-major,
top-left-origin RGBA pixel buffer. -/
structure PixelBuffer where
  width : Nat
  height : Nat
  data : List Pixel
  deriving DecidableEq, Repr

/-- Modelled from the spec: a SourceImage is the raster surface produced by the
decoder. -/
abbrev SourceImage := PixelBuffer

/-- Modelled from the spec: decoder failure taxonomy. -/
inductive DecodeError
  | Unsupported
  | Corrupt
  deriving DecidableEq, Repr

/-- Exact prefix test on character lists (the semantics of JavaScript's
`String.prototype.startsWith`). -/
def strStartsWithAux : List Char → List Char → Bool
  | [], _ => true
  | _ :: _, [] => false
  | c :: cs, d :: ds => c = d && strStartsWithAux cs ds

/-- Exact model of `s.startsWith(p)` from JavaScript: `p` is a prefix of `s`. -/
def strStartsWith (s p : String) : Bool := strStartsWithAux p.data s.data

/-- Modelled from the spec: the decoder (`src/lib/processImage.ts`, absent from
`src/`) turns opaque source bytes into a raster surface and must reject
non-image, non-decodable or zero-dimension input.  The byte container is
modelled minimally: a two-entry header carrying width and height followed by
four bytes (RGBA) per pixel.  A declared MIME type that is not an image type is
`Unsupported`; a truncated, oversized or zero-dimension payload is `Corrupt`. -/
def decode (bytes : List Nat) (declaredMimeType : String) :
    Except DecodeError SourceImage :=
  if strStartsWith declaredMimeType "image/" = false then .error .Unsupported
  else
    match bytes with
    | w :: h :: rest =>
      if w = 0 ∨ h = 0 then .error .Corrupt
      else if rest.length = 4 * w * h then
        .ok { width := w, height := h,
              data := (List.range (w * h)).map (fun i =>
                { r := (rest.getD (4 * i) 0 : ℚ),
                  g := (rest.getD (4 * i + 1) 0 : ℚ),
                  b := (rest.getD (4 * i + 2) 0 : ℚ),
                  a := (rest.getD (4 * i + 3) 0 : ℚ) }) }
      else .error .Corrupt
    | _ => .error .Corrupt

/-- Crop rectangle in source-pixel coordinates (also the shape produced by the
crop widget, whose callback may report fractional or out-of-range values). -/
structure CropRect where
  x : ℚ
  y : ℚ
  width : ℚ
  height : ℚ
  deriving DecidableEq, Repr

/-- Modelled from the spec: geometry failure taxonomy. -/
inductive GeometryError
  | EmptyCrop
  | InvalidTarget
  deriving DecidableEq, Repr

/-- Modelled from the spec: the sampling plan — the clamped crop rectangle, the
two independent scale factors, and the target dimensions they encode. -/
structure ResolvedPlan where
  crop : CropRect
  sx : ℚ
  sy : ℚ
  targetWidth : ℤ
  targetHeight : ℤ
  deriving DecidableEq, Repr

/-- Modelled from the spec: intersect a crop rectangle with the source bounds
(never expands it). -/
def clampCrop (sw sh : ℚ) (c : CropRect) : CropRect :=
  let x1 := max c.x 0
  let y1 := max c.y 0
  let x2 := min (c.x + c.width) sw
  let y2 := min (c.y + c.height) sh
  { x := x1, y := y1, width := x2 - x1, height := y2 - y1 }

/-- Modelled from the spec: the geometry resolver.  A missing crop means the
full source rectangle; a target dimension ≤ 0 is `InvalidTarget`; a crop whose
clamped width or height is ≤ 0 is `EmptyCrop`; otherwise the plan carries the
clamped crop and the independent scale factors. -/
def resolve (sw sh : ℚ) (cropRect : Option CropRect) (tw th : ℤ) :
    Except GeometryError ResolvedPlan :=
  if tw ≤ 0 ∨ th ≤ 0 then .error .InvalidTarget
  else
    let c := clampCrop sw sh
      (cropRect.getD { x := 0, y := 0, width := sw, height := sh })
    if c.width ≤ 0 ∨ c.height ≤ 0 then .error .EmptyCrop
    else .ok { crop := c, sx := (tw : ℚ) / c.width, sy := (th : ℚ) / c.height,
               targetWidth := tw, targetHeight := th }

/-- Read a source pixel, clamping coordinates to the image bounds. -/
def getPixel (img : SourceImage) (x y : ℤ) : Pixel :=
  let xc := min (max x 0) ((img.width : ℤ) - 1)
  let yc := min (max y 0) ((img.height : ℤ) - 1)
  img.data.getD (yc.toNat * img.width + xc.toNat) default

/-- Channel-wise linear interpolation between two pixels. -/
def lerpPixel (t : ℚ) (p q : Pixel) : Pixel :=
  { r := p.r + t * (q.r - p.r), g := p.g + t * (q.g - p.g),
    b := p.b + t * (q.b - p.b), a := p.a + t * (q.a - p.a) }

/-- Modelled from the spec: deterministic bilinear sample of the source at
rational source coordinates, interpolating alpha like the color channels. -/
def sampleBilinear (img : SourceImage) (sx sy : ℚ) : Pixel :=
  let x0 := ⌊sx⌋
  let y0 := ⌊sy⌋
  let fx := sx - (x0 : ℚ)
  let fy := sy - (y0 : ℚ)
  let p00 := getPixel img x0 y0
  let p10 := getPixel img (x0 + 1) y0
  let p01 := getPixel img x0 (y0 + 1)
  let p11 := getPixel img (x0 + 1) (y0 + 1)
  lerpPixel fy (lerpPixel fx p00 p10) (lerpPixel fx p01 p11)

/-- Modelled from the spec: the resampler draws the crop region into a fresh
buffer of exactly the plan's target dimensions, mapping each destination pixel
center back into source space through the crop offset and the inverse scale
factors, with bilinear filtering. -/
def resample (img : SourceImage) (plan : ResolvedPlan) : PixelBuffer :=
  let tw := plan.targetWidth.toNat
  let th := plan.targetHeight.toNat
  { width := tw, height := th,
    data := (List.range (th * tw)).map (fun i =>
      sampleBilinear img
        (plan.crop.x + (((i % tw : Nat) : ℚ) + 1 / 2) / plan.sx)
        (plan.crop.y + (((i / tw : Nat) : ℚ) + 1 / 2) / plan.sy)) }

/-- Modelled from the spec: encoder failure taxonomy. -/
inductive EncodeError
  | UnsupportedFormat
  | EncoderFailure
  deriving DecidableEq, Repr

/-- Modelled from the spec: a quality outside [0,1] is resolved by clamping to
the nearest bound. -/
def clampQuality (q : ℚ) : ℚ := min (max q 0) 1

/-- Modelled from the spec: jpeg flattens alpha onto an opaque black
background, since the format has no alpha channel. -/
def flattenOnBlack (p : Pixel) : Pixel :=
  { r := p.r * p.a / 255, g := p.g * p.a / 255, b := p.b * p.a / 255, a := 255 }

/-- Quality mapped linearly onto the platform encoder's 0..100 scale. -/
def qualityScaled (q : ℚ) : ℤ := ⌊clampQuality q * 100⌋

/-- Lossy quantization of one channel, coarser at lower quality and exact at
quality 100. -/
def lossyChannel (q100 : ℤ) (v : ℚ) : ℤ := (101 - q100) * ⌊v / ((101 - q100 : ℤ) : ℚ)⌋

/-- Lossless serialization of one pixel with alpha. -/
def pixelBytes (p : Pixel) : List ℤ := [⌊p.r⌋, ⌊p.g⌋, ⌊p.b⌋, ⌊p.a⌋]

/-- Does any pixel of the buffer carry transparency? -/
def hasAlpha (buf : PixelBuffer) : Bool :=
  buf.data.any (fun p => p.a < 255)

/-- Modelled from the spec: the jpeg byte stream — alpha flattened onto black,
channels quantized by the scaled quality. -/
def jpegBytes (buf : PixelBuffer) (q : ℚ) : List ℤ :=
  let q100 := qualityScaled q
  1 :: q100 :: (buf.width : ℤ) :: (buf.height : ℤ) ::
    (buf.data.map (fun p =>
      let fp := flattenOnBlack p
      [lossyChannel q100 fp.r, lossyChannel q100 fp.g, lossyChannel q100 fp.b])).flatten

/-- Modelled from the spec: the png byte stream — lossless, quality ignored,
alpha preserved. -/
def pngBytes (buf : PixelBuffer) : List ℤ :=
  2 :: (buf.width : ℤ) :: (buf.height : ℤ) :: (buf.data.map pixelBytes).flatten

/-- Modelled from the spec: the webp byte stream — alpha preserved, channels
quantized by the scaled quality. -/
def webpBytes (buf : PixelBuffer) (q : ℚ) : List ℤ :=
  let q100 := qualityScaled q
  3 :: q100 :: (buf.width : ℤ) :: (buf.height : ℤ) ::
    (buf.data.map (fun p =>
      [lossyChannel q100 p.r, lossyChannel q100 p.g, lossyChannel q100 p.b,
       lossyChannel q100 p.a])).flatten

/-- Modelled from the spec: the byte stream of one encoded raster; pdf wraps an
inner jpeg stream (png when alpha is present) in a minimal single-page
container sized one pixel per point.  Every stream is a pure function of
buffer, format and clamped quality — no timestamps, no randomness. -/
def encodeBytes (buf : PixelBuffer) (fmt : OutputFormat) (q : ℚ) : List ℤ :=
  match fmt with
  | .jpeg => jpegBytes buf q
  | .png => pngBytes buf
  | .webp => webpBytes buf q
  | .pdf =>
    4 :: (buf.width : ℤ) :: (buf.height : ℤ) ::
      (if hasAlpha buf then pngBytes buf else jpegBytes buf q)

/-- MIME type of each output format. -/
def mimeType : OutputFormat → String
  | .jpeg => "image/jpeg"
  | .png => "image/png"
  | .webp => "image/webp"
  | .pdf => "application/pdf"

/-- Modelled from the spec: the encoded result handed back to the caller. -/
structure EncodedResult where
  bytes : List ℤ
  width : Nat
  height : Nat
  byteSize : Nat
  outMime : String
  deriving DecidableEq, Repr

/-- Modelled from the spec: the encoder — serializes the raster into the
requested container, applying the clamped quality where the format supports
it. -/
def encode (buf : PixelBuffer) (fmt : OutputFormat) (q : ℚ) :
    Except EncodeError EncodedResult :=
  let bs := encodeBytes buf fmt q
  .ok { bytes := bs, width := buf.width, height := buf.height,
        byteSize := bs.length, outMime := mimeType fmt }

/-! The UI layer, embedded from `src/components/ImageProcessor.tsx`.  React
state hooks become fields of `UIState`; each handler is a state transition.
The external `processImage` call is a parameter (`run`), and `handleProcess`
additionally returns the request it sent to `processImage`, or `none` when it
returned before invoking it. -/

/-- A selected file, as seen by the component: name, declared MIME type,
size in bytes. -/
structure FileInfo where
  name : String
  type : String
  size : Nat
  deriving DecidableEq, Repr

/-- Argument object of `processImage` as built in `handleProcess`
(`ImageProcessor.tsx:173-181`). -/
structure ProcRequest where
  file : FileInfo
  targetWidth : ℚ
  targetHeight : ℚ
  format : OutputFormat
  quality : ℚ
  cropArea : Option CropRect
  originalName : String
  deriving DecidableEq, Repr

/-- Result object returned by `processImage` on success. -/
structure ProcResult where
  url : String
  filename : String
  width : Nat
  height : Nat
  size : Nat
  outMime : String
  blob : List ℤ
  deriving DecidableEq, Repr

/-- Outcome of awaiting `processImage`: a result, or a thrown error carrying
the message the catch block will display. -/
inductive ProcOutcome
  | ok (r : ProcResult)
  | err (message : String)

/-- The `ProcessedState` record stored by the component
(`ImageProcessor.tsx:7-15`). -/
structure ProcessedState where
  previewUrl : String
  filename : String
  width : Nat
  height : Nat
  size : Nat
  outMime : String
  blob : List ℤ
  deriving DecidableEq, Repr

/-- The component's React state (`ImageProcessor.tsx:35-57`). -/
structure UIState where
  file : Option FileInfo
  imageUrl : Option String
  naturalDimensions : Option (Nat × Nat)
  crop : ℚ × ℚ
  zoom : ℚ
  aspect : Option ℚ
  croppedAreaPixels : Option CropRect
  targetWidth : ℚ
  targetHeight : ℚ
  maintainAspect : Bool
  quality : ℚ
  format : OutputFormat
  isProcessing : Bool
  error : Option String
  processed : Option ProcessedState
  deriving DecidableEq, Repr

/-- Embeds `resetState` (`ImageProcessor.tsx:68-77`). -/
def resetState (st : UIState) : UIState :=
  { st with crop := (0, 0), zoom := 1, aspect := none, croppedAreaPixels := none,
            quality := 80, format := .jpeg, processed := none, error := none }

/-- Embeds the synchronous part of `handleFileChange`
(`ImageProcessor.tsx:79-120`).  `selected` is `event.target.files?.[0]`; the
created object URL is modelled by the file's name.  The asynchronous
`image.onload` continuation is `imageLoaded` below. -/
def handleFileChange (st : UIState) (selected : Option FileInfo) : UIState :=
  match selected with
  | none => st
  | some f =>
    if strStartsWith f.type "image/" = false ∧ f.type ≠ "application/pdf" then
      { st with error := some "Please select a valid image or PDF file" }
    else
      let st1 := resetState { st with file := some f, imageUrl := some f.name }
      if f.type = "application/pdf" then
        { st1 with
            error := some "PDF import is not supported yet. Please select an image format.",
            naturalDimensions := none }
      else st1

/-- Embeds the `image.onload` continuation of `handleFileChange`
(`ImageProcessor.tsx:109-115`). -/
def imageLoaded (st : UIState) (w h : Nat) : UIState :=
  { st with naturalDimensions := some (w, h),
            targetWidth := (w : ℚ), targetHeight := (h : ℚ) }

/-- Embeds the `image.onerror` continuation of `handleFileChange`
(`ImageProcessor.tsx:116-119`). -/
def imageLoadFailed (st : UIState) : UIState :=
  { st with error := some "Could not load the selected image.",
            naturalDimensions := none }

/-- Embeds `handleWidthChange` (`ImageProcessor.tsx:129-139`). -/
def handleWidthChange (value : ℚ) (st : UIState) : UIState :=
  match st.naturalDimensions with
  | none => st
  | some nd =>
    let st1 := { st with targetWidth := value }
    if st.maintainAspect then
      let ratio : ℚ := (nd.2 : ℚ) / (nd.1 : ℚ)
      { st1 with targetHeight := ((round (value * ratio) : ℤ) : ℚ) }
    else st1

/-- Embeds `handleHeightChange` (`ImageProcessor.tsx:141-151`). -/
def handleHeightChange (value : ℚ) (st : UIState) : UIState :=
  match st.naturalDimensions with
  | none => st
  | some nd =>
    let st1 := { st with targetHeight := value }
    if st.maintainAspect then
      let ratio : ℚ := (nd.1 : ℚ) / (nd.2 : ℚ)
      { st1 with targetWidth := ((round (value * ratio) : ℤ) : ℚ) }
    else st1

/-- Embeds the quality conversion of `handleProcess`
(`ImageProcessor.tsx:172`): `Math.min(Math.max(quality / 100, 0.01), 1)`. -/
def qualityValue (q : ℚ) : ℚ := min (max (q / 100) (1 / 100)) 1

/-- Embeds the `processImage` argument object built in `handleProcess`
(`ImageProcessor.tsx:173-181`). -/
def buildRequest (f : FileInfo) (st : UIState) : ProcRequest :=
  { file := f, targetWidth := st.targetWidth, targetHeight := st.targetHeight,
    format := st.format,
    quality := if st.format = .png then 1 else qualityValue st.quality,
    cropArea := st.croppedAreaPixels, originalName := f.name }

/-- Embeds `handleProcess` (`ImageProcessor.tsx:157-202`).  `run` stands for
the awaited `processImage` call; the second component is the request passed to
it, or `none` when the handler returned before invoking the pipeline. -/
def handleProcess (run : ProcRequest → ProcOutcome) (st : UIState) :
    UIState × Option ProcRequest :=
  match st.file, st.naturalDimensions with
  | some f, some _ =>
    if st.targetWidth ≤ 0 ∨ st.targetHeight ≤ 0 then
      ({ st with error := some "Please provide valid output dimensions" }, none)
    else
      let st1 := { st with isProcessing := true, error := none }
      let req := buildRequest f st
      match run req with
      | .ok r =>
        ({ st1 with
            processed := some { previewUrl := r.url, filename := r.filename,
                                width := r.width, height := r.height,
                                size := r.size, outMime := r.outMime,
                                blob := r.blob },
            isProcessing := false }, some req)
      | .err m =>
        ({ st1 with error := some m, isProcessing := false }, some req)
  | _, _ => ({ st with error := some "Upload an image to get started" }, none)

/-! Concrete inputs used to witness the theorems below. -/

/-- Byte stream of a 1×1 red image in the modelled container. -/
def bytes1 : List Nat := [1, 1, 255, 0, 0, 255]

/-- The surface decoded from `bytes1`. -/
def img1 : SourceImage :=
  { width := 1, height := 1, data := [{ r := 255, g := 0, b := 0, a := 255 }] }

/-- The plan resolving the full `img1` to a 2×3 target. -/
def plan1 : ResolvedPlan :=
  { crop := { x := 0, y := 0, width := 1, height := 1 }, sx := 2, sy := 3,
    targetWidth := 2, targetHeight := 3 }

/-- An image file selection. -/
def fileImg1 : FileInfo := { name := "photo.jpg", type := "image/jpeg", size := 1000 }

/-- A PDF file selection. -/
def filePdf1 : FileInfo := { name := "doc.pdf", type := "application/pdf", size := 1000 }

/-- A non-image, non-PDF file selection. -/
def fileTxt1 : FileInfo := { name := "notes.txt", type := "text/plain", size := 10 }

/-- A component state with a 2×1 image loaded and a 800×400 target. -/
def st1 : UIState :=
  { file := some fileImg1, imageUrl := some "photo.jpg",
    naturalDimensions := some (2, 1), crop := (0, 0), zoom := 1, aspect := none,
    croppedAreaPixels := none, targetWidth := 800, targetHeight := 400,
    maintainAspect := true, quality := 80, format := .jpeg,
    isProcessing := false, error := none, processed := none }

/-- A `processImage` stand-in that always throws. -/
def runErr1 : ProcRequest → ProcOutcome := fun _ => .err "processing failed"

/-- A successful `processImage` result. -/
def res1 : ProcResult :=
  { url := "blob:1", filename := "photo.jpg", width := 800, height := 400,
    size := 100, outMime := "image/jpeg", blob := [] }

/-- A `processImage` stand-in that always succeeds with `res1`. -/
def runOk1 : ProcRequest → ProcOutcome := fun _ => .ok res1

/-- The state `st1` with the PNG output format selected. -/
def stPng1 : UIState := { st1 with format := .png }

/-! Theorems, one per claim. -/

/-- C1: for every valid source image and every target dimensions (w, h) with
w ≥ 1 and h ≥ 1, running decode then resample produces a pixel buffer whose
dimensions are exactly (w, h), regardless of the source's or crop's aspect
ratio. -/
theorem decode_resample_dims_exact (bytes : List Nat) (mt : String)
    (img : SourceImage) (cropQ : Option CropRect) (tw th : ℤ)
    (plan : ResolvedPlan)
    (hdec : decode bytes mt = Except.ok img)
    (hres : resolve (img.width : ℚ) (img.height : ℚ) cropQ tw th = Except.ok plan)
    (htw : 1 ≤ tw) (hth : 1 ≤ th) :
    ((resample img plan).width : ℤ) = tw ∧ ((resample img plan).height : ℤ) = th := by
  unfold resolve at hres
  split at hres
  · exact absurd hres (by simp)
  · dsimp only [] at hres
    split at hres
    · exact absurd hres (by simp)
    · obtain rfl := (Except.ok.inj hres).symm
      constructor
      · simpa [resample] using Int.toNat_of_nonneg (by omega)
      · simpa [resample] using Int.toNat_of_nonneg (by omega)

/-- Witness for C1 at a concrete input: a decoded 1×1 image resampled to a
2×3 target. -/
theorem decode_resample_dims_exact_witness :
    ((resample img1 plan1).width : ℤ) = 2 ∧ ((resample img1 plan1).height : ℤ) = 3 :=
  decode_resample_dims_exact bytes1 "image/png" img1 none 2 3 plan1
    (by norm_num [decode, bytes1, img1, strStartsWith, strStartsWithAux, List.range_succ])
    (by norm_num [img1, plan1, resolve, clampCrop])
    (by decide) (by decide)

/-- C2: the geometry resolver intersects an out-of-bounds crop with the source
bounds without error (never expanding it); the crop
(x := -5, y := 0, width := source.width + 100, height := 10) clamps to
(x := 0, y := 0, width := source.width, height := 10); only a crop whose
clamped width or height is ≤ 0 yields EmptyCrop. -/
theorem resolve_clamps_never_expands (sw sh : ℚ) (c : CropRect) (tw th : ℤ)
    (hsw : 0 < sw) (hsh : 10 ≤ sh) (htw : 0 < tw) (hth : 0 < th) :
    (0 ≤ (clampCrop sw sh c).x ∧ 0 ≤ (clampCrop sw sh c).y ∧
      (clampCrop sw sh c).x + (clampCrop sw sh c).width ≤ sw ∧
      (clampCrop sw sh c).y + (clampCrop sw sh c).height ≤ sh) ∧
    (c.x ≤ (clampCrop sw sh c).x ∧ c.y ≤ (clampCrop sw sh c).y ∧
      (clampCrop sw sh c).width ≤ c.width ∧
      (clampCrop sw sh c).height ≤ c.height) ∧
    (0 < (clampCrop sw sh c).width → 0 < (clampCrop sw sh c).height →
      resolve sw sh (some c) tw th =
        Except.ok { crop := clampCrop sw sh c,
                    sx := (tw : ℚ) / (clampCrop sw sh c).width,
                    sy := (th : ℚ) / (clampCrop sw sh c).height,
                    targetWidth := tw, targetHeight := th }) ∧
    ((clampCrop sw sh c).width ≤ 0 ∨ (clampCrop sw sh c).height ≤ 0 →
      resolve sw sh (some c) tw th = Except.error GeometryError.EmptyCrop) ∧
    (clampCrop sw sh { x := -5, y := 0, width := sw + 100, height := 10 } =
      { x := 0, y := 0, width := sw, height := 10 }) := by
  refine ⟨⟨le_max_right _ _, le_max_right _ _, ?_, ?_⟩,
          ⟨le_max_left _ _, le_max_left _ _, ?_, ?_⟩, ?_, ?_, ?_⟩
  · have : (clampCrop sw sh c).x + (clampCrop sw sh c).width =
        min (c.x + c.width) sw := by simp [clampCrop]
    rw [this]; exact min_le_right _ _
  · have : (clampCrop sw sh c).y + (clampCrop sw sh c).height =
        min (c.y + c.height) sh := by simp [clampCrop]
    rw [this]; exact min_le_right _ _
  · have h1 : min (c.x + c.width) sw ≤ c.x + c.width := min_le_left _ _
    have h2 : c.x ≤ max c.x 0 := le_max_left _ _
    simp only [clampCrop]
    linarith
  · have h1 : min (c.y + c.height) sh ≤ c.y + c.height := min_le_left _ _
    have h2 : c.y ≤ max c.y 0 := le_max_left _ _
    simp only [clampCrop]
    linarith
  · intro hw hh
    have hng : ¬(tw ≤ 0 ∨ th ≤ 0) := by omega
    have hng2 : ¬((clampCrop sw sh c).width ≤ 0 ∨ (clampCrop sw sh c).height ≤ 0) := by
      push_neg
      exact ⟨hw, hh⟩
    simp only [resolve, Option.getD_some, if_neg hng, if_neg hng2]
  · intro h
    have hng : ¬(tw ≤ 0 ∨ th ≤ 0) := by omega
    simp only [resolve, Option.getD_some, if_neg hng, if_pos h]
  · have hx1 : max (-5 : ℚ) 0 = 0 := max_eq_right (by norm_num)
    have hx2 : min (-5 + (sw + 100)) sw = sw := min_eq_right (by linarith)
    have hy2 : min (10 : ℚ) sh = 10 := min_eq_left hsh
    simp [clampCrop, hx1, hx2, hy2, hsh]

/-- Witness for C2 at a concrete input: a 20-wide, 10-high source with an
overhanging crop and a 2×3 target. -/
theorem resolve_clamps_never_expands_witness :
    (0 ≤ (clampCrop 20 10 { x := -5, y := 0, width := 120, height := 10 }).x ∧
      0 ≤ (clampCrop 20 10 { x := -5, y := 0, width := 120, height := 10 }).y ∧
      (clampCrop 20 10 { x := -5, y := 0, width := 120, height := 10 }).x +
        (clampCrop 20 10 { x := -5, y := 0, width := 120, height := 10 }).width ≤ 20 ∧
      (clampCrop 20 10 { x := -5, y := 0, width := 120, height := 10 }).y +
        (clampCrop 20 10 { x := -5, y := 0, width := 120, height := 10 }).height ≤ 10) ∧
    ((-5 : ℚ) ≤ (clampCrop 20 10 { x := -5, y := 0, width := 120, height := 10 }).x ∧
      (0 : ℚ) ≤ (clampCrop 20 10 { x := -5, y := 0, width := 120, height := 10 }).y ∧
      (clampCrop 20 10 { x := -5, y := 0, width := 120, height := 10 }).width ≤ 120 ∧
      (clampCrop 20 10 { x := -5, y := 0, width := 120, height := 10 }).height ≤ 10) ∧
    (0 < (clampCrop 20 10 { x := -5, y := 0, width := 120, height := 10 }).width →
      0 < (clampCrop 20 10 { x := -5, y := 0, width := 120, height := 10 }).height →
      resolve 20 10 (some { x := -5, y := 0, width := 120, height := 10 }) 2 3 =
        Except.ok { crop := clampCrop 20 10 { x := -5, y := 0, width := 120, height := 10 },
                    sx := (2 : ℚ) / (clampCrop 20 10 { x := -5, y := 0, width := 120, height := 10 }).width,
                    sy := (3 : ℚ) / (clampCrop 20 10 { x := -5, y := 0, width := 120, height := 10 }).height,
                    targetWidth := 2, targetHeight := 3 }) ∧
    ((clampCrop 20 10 { x := -5, y := 0, width := 120, height := 10 }).width ≤ 0 ∨
      (clampCrop 20 10 { x := -5, y := 0, width := 120, height := 10 }).height ≤ 0 →
      resolve 20 10 (some { x := -5, y := 0, width := 120, height := 10 }) 2 3 =
        Except.error GeometryError.EmptyCrop) ∧
    (clampCrop 20 10 { x := -5, y := 0, width := (20 : ℚ) + 100, height := 10 } =
      { x := 0, y := 0, width := 20, height := 10 }) :=
  resolve_clamps_never_expands 20 10 { x := -5, y := 0, width := 120, height := 10 }
    2 3 (by decide) (by decide) (by decide) (by decide)

/-- C3: with an image loaded, a request whose target width or height is ≤ 0
sets the error "Please provide valid output dimensions" and returns before
`processImage` is invoked (the second component is `none`). -/
theorem handleProcess_rejects_invalid_target (run : ProcRequest → ProcOutcome)
    (st : UIState) (f : FileInfo) (nd : Nat × Nat)
    (hf : st.file = some f) (hnd : st.naturalDimensions = some nd)
    (h : st.targetWidth ≤ 0 ∨ st.targetHeight ≤ 0) :
    handleProcess run st =
      ({ st with error := some "Please provide valid output dimensions" }, none) := by
  unfold handleProcess
  rw [hf, hnd]
  simp only [if_pos h]

/-- Witness for C3 at a concrete input: `st1` with target width 0. -/
theorem handleProcess_rejects_invalid_target_witness :
    handleProcess runErr1 { st1 with targetWidth := 0 } =
      ({ { st1 with targetWidth := 0 } with
          error := some "Please provide valid output dimensions" }, none) :=
  handleProcess_rejects_invalid_target runErr1 { st1 with targetWidth := 0 }
    fileImg1 (2, 1) rfl rfl (Or.inl (by decide))

/-- C4: for a slider quality in [0, 100], the caller converts it by dividing
by 100; the quality passed to `processImage` always lies in [0, 1], and for
non-PNG formats it equals min(max(q / 100, 0.01), 1). -/
theorem quality_conversion_in_unit_interval (run : ProcRequest → ProcOutcome)
    (st : UIState) (f : FileInfo) (nd : Nat × Nat)
    (hf : st.file = some f) (hnd : st.naturalDimensions = some nd)
    (hq0 : 0 ≤ st.quality) (hq1 : st.quality ≤ 100) :
    0 ≤ (buildRequest f st).quality ∧ (buildRequest f st).quality ≤ 1 ∧
    (st.format ≠ .png →
      (buildRequest f st).quality = min (max (st.quality / 100) (1 / 100)) 1) ∧
    (∀ st' req, handleProcess run st = (st', some req) → req = buildRequest f st) := by
  refine ⟨?_, ?_, ?_, ?_⟩
  · simp only [buildRequest]
    split
    · norm_num
    · exact le_min (le_max_of_le_right (by norm_num)) (by norm_num)
  · simp only [buildRequest]
    split
    · norm_num
    · exact min_le_right _ _
  · intro hfmt
    simp only [buildRequest, if_neg hfmt, qualityValue]
  · intro st' req hrun
    unfold handleProcess at hrun
    rw [hf, hnd] at hrun
    split at hrun
    · rename_i f1 nd1 heqf heqnd
      obtain rfl : f1 = f := (Option.some.inj heqf).symm
      split at hrun
      · exact absurd (congrArg Prod.snd hrun) (by simp)
      · dsimp only [] at hrun
        split at hrun
        · exact (Option.some.inj (congrArg Prod.snd hrun)).symm
        · exact (Option.some.inj (congrArg Prod.snd hrun)).symm
    · rename_i hno
      exact ((hno f nd rfl rfl)).elim

/-- Witness for C4 at a concrete input: `st1` with its slider at 80. -/
theorem quality_conversion_in_unit_interval_witness :
    0 ≤ (buildRequest fileImg1 st1).quality ∧
    (buildRequest fileImg1 st1).quality ≤ 1 ∧
    (st1.format ≠ .png →
      (buildRequest fileImg1 st1).quality =
        min (max (st1.quality / 100) (1 / 100)) 1) ∧
    (∀ st' req, handleProcess runOk1 st1 = (st', some req) →
      req = buildRequest fileImg1 st1) :=
  quality_conversion_in_unit_interval runOk1 st1 fileImg1 (2, 1) rfl rfl
    (by decide) (by decide)

/-- The quality clamp is idempotent. -/
theorem clampQuality_idem (q : ℚ) : clampQuality (clampQuality q) = clampQuality q := by
  unfold clampQuality
  rw [max_eq_left (le_min (le_max_right _ _) zero_le_one),
      min_eq_left (min_le_right _ _)]

/-- The encoded stream depends on quality only through the clamped value. -/
theorem encodeBytes_clamp_eq (buf : PixelBuffer) (fmt : OutputFormat) (q : ℚ) :
    encodeBytes buf fmt q = encodeBytes buf fmt (clampQuality q) := by
  have hs : qualityScaled (clampQuality q) = qualityScaled q := by
    unfold qualityScaled
    rw [clampQuality_idem]
  cases fmt <;> simp [encodeBytes, jpegBytes, pngBytes, webpBytes, hs]

/-- C5: a quality outside [0, 1] is resolved by clamping to the nearest bound,
not rejected: encoding is invariant under the clamp, and jpeg at quality 3/2
produces the very bytes of jpeg at quality 1. -/
theorem encode_clamps_out_of_range_quality :
    (∀ (buf : PixelBuffer) (fmt : OutputFormat) (q : ℚ),
      encode buf fmt q = encode buf fmt (clampQuality q)) ∧
    (∀ buf : PixelBuffer,
      encode buf OutputFormat.jpeg (3 / 2) = encode buf OutputFormat.jpeg 1) := by
  constructor
  · intro buf fmt q
    simp [encode, encodeBytes_clamp_eq buf fmt q]
  · intro buf
    have h1 : clampQuality (3 / 2) = 1 := by norm_num [clampQuality]
    have h2 : clampQuality 1 = 1 := by norm_num [clampQuality]
    rw [show encode buf OutputFormat.jpeg (3 / 2) =
          encode buf OutputFormat.jpeg (clampQuality (3 / 2)) by
        simp [encode, encodeBytes_clamp_eq buf OutputFormat.jpeg (3 / 2)],
      show encode buf OutputFormat.jpeg 1 =
          encode buf OutputFormat.jpeg (clampQuality 1) by
        simp [encode, encodeBytes_clamp_eq buf OutputFormat.jpeg 1],
      h1, h2]

/-- Whenever `handleProcess` invokes `processImage`, the request it sends is
`buildRequest` of the selected file and the current state. -/
theorem handleProcess_request_eq (run : ProcRequest → ProcOutcome)
    (st st' : UIState) (req : ProcRequest)
    (h : handleProcess run st = (st', some req)) :
    ∃ f, st.file = some f ∧ req = buildRequest f st := by
  unfold handleProcess at h
  split at h
  · rename_i f1 nd1 heqf heqnd
    refine ⟨f1, heqf, ?_⟩
    split at h
    · exact absurd (congrArg Prod.snd h) (by simp)
    · dsimp only [] at h
      split at h
      · exact (Option.some.inj (congrArg Prod.snd h)).symm
      · exact (Option.some.inj (congrArg Prod.snd h)).symm
  · exact absurd (congrArg Prod.snd h) (by simp)

/-- C6: when the format is png the quality slider has no effect — two runs
differing only in the slider send the same request and store the same
processed result, and the quality passed to `processImage` is always 1. -/
theorem png_format_ignores_quality (run : ProcRequest → ProcOutcome)
    (st : UIState) (q1 q2 : ℚ) (hfmt : st.format = OutputFormat.png) :
    (handleProcess run { st with quality := q1 }).2 =
      (handleProcess run { st with quality := q2 }).2 ∧
    (handleProcess run { st with quality := q1 }).1.processed =
      (handleProcess run { st with quality := q2 }).1.processed ∧
    (∀ st' req, handleProcess run st = (st', some req) → req.quality = 1) := by
  have hbr : ∀ f : FileInfo,
      buildRequest f { st with quality := q1 } = buildRequest f { st with quality := q2 } := by
    intro f
    simp [buildRequest, hfmt]
  have hpair : (handleProcess run { st with quality := q1 }).2 =
      (handleProcess run { st with quality := q2 }).2 ∧
      (handleProcess run { st with quality := q1 }).1.processed =
      (handleProcess run { st with quality := q2 }).1.processed := by
    unfold handleProcess
    dsimp only []
    simp only [hbr]
    rcases hfile : st.file with _ | f
    · simp
    · rcases hnatd : st.naturalDimensions with _ | nd
      · simp
      · by_cases htgt : st.targetWidth ≤ 0 ∨ st.targetHeight ≤ 0
        · simp [htgt]
        · simp only [if_neg htgt]
          rcases hr : run (buildRequest f
              { st with file := some f, naturalDimensions := some nd, quality := q2 }) with r | m <;>
            simp [hr]
  refine ⟨hpair.1, hpair.2, ?_⟩
  intro st' req h
  obtain ⟨f, hf, rfl⟩ := handleProcess_request_eq run st st' req h
  simp [buildRequest, hfmt]

/-- Witness for C6 at a concrete input: `stPng1` with sliders 10 and 90. -/
theorem png_format_ignores_quality_witness :
    (handleProcess runOk1 { stPng1 with quality := 10 }).2 =
      (handleProcess runOk1 { stPng1 with quality := 90 }).2 ∧
    (handleProcess runOk1 { stPng1 with quality := 10 }).1.processed =
      (handleProcess runOk1 { stPng1 with quality := 90 }).1.processed ∧
    (∀ st' req, handleProcess runOk1 stPng1 = (st', some req) → req.quality = 1) :=
  png_format_ignores_quality runOk1 stPng1 10 90 rfl

/-- C7: encoding is deterministic — two invocations of the encoder on equal
buffers with equal format and quality produce byte-identical output. -/
theorem encode_deterministic (buf buf' : PixelBuffer) (fmt fmt' : OutputFormat)
    (q q' : ℚ) (hb : buf = buf') (hf : fmt = fmt') (hq : q = q') :
    encode buf fmt q = encode buf' fmt' q' := by
  subst hb
  subst hf
  subst hq
  rfl

/-- Witness for C7 at a concrete input: the decoded 1×1 image as png. -/
theorem encode_deterministic_witness :
    encode img1 OutputFormat.png 1 = encode img1 OutputFormat.png 1 :=
  encode_deterministic img1 img1 OutputFormat.png OutputFormat.png 1 1 rfl rfl rfl

/-- C8: a selected file that is neither an image nor a PDF only sets the error
"Please select a valid image or PDF file" and changes nothing else; an
application/pdf file sets the unsupported-PDF error and clears
naturalDimensions, so `handleProcess` on the resulting state never invokes
`processImage`. -/
theorem fileChange_rejects_non_image (st : UIState) (f : FileInfo) :
    (strStartsWith f.type "image/" = false → f.type ≠ "application/pdf" →
      handleFileChange st (some f) =
        { st with error := some "Please select a valid image or PDF file" }) ∧
    (f.type = "application/pdf" →
      (handleFileChange st (some f)).naturalDimensions = none ∧
      (handleFileChange st (some f)).error =
        some "PDF import is not supported yet. Please select an image format." ∧
      ∀ run, (handleProcess run (handleFileChange st (some f))).2 = none) := by
  constructor
  · intro h1 h2
    unfold handleFileChange
    dsimp only []
    rw [if_pos ⟨h1, h2⟩]
  · intro hpdf
    have hcond : ¬(strStartsWith f.type "image/" = false ∧ f.type ≠ "application/pdf") := by
      intro hc
      exact hc.2 hpdf
    unfold handleFileChange
    dsimp only []
    rw [if_neg hcond, if_pos hpdf]
    refine ⟨rfl, rfl, ?_⟩
    intro run
    rfl

/-- Witness for C8 at concrete inputs: selecting `fileTxt1` and `filePdf1`
over `st1`. -/
theorem fileChange_rejects_non_image_witness :
    (handleFileChange st1 (some fileTxt1) =
      { st1 with error := some "Please select a valid image or PDF file" }) ∧
    (handleFileChange st1 (some filePdf1)).naturalDimensions = none ∧
    (handleFileChange st1 (some filePdf1)).error =
      some "PDF import is not supported yet. Please select an image format." ∧
    ∀ run, (handleProcess run (handleFileChange st1 (some filePdf1))).2 = none :=
  ⟨(fileChange_rejects_non_image st1 fileTxt1).1 (by decide) (by decide),
    (fileChange_rejects_non_image st1 filePdf1).2 rfl⟩

/-- C9: with the aspect lock off, `handleWidthChange` changes only the target
width (and `handleHeightChange` only the height); with it on, the other
dimension is set to round(v · naturalHeight / naturalWidth) — the original
image's ratio. -/
theorem dimension_handlers_respect_aspect_lock (st : UIState) (v : ℚ)
    (nd : Nat × Nat) (hnd : st.naturalDimensions = some nd) :
    (st.maintainAspect = false →
      handleWidthChange v st = { st with targetWidth := v } ∧
      handleHeightChange v st = { st with targetHeight := v }) ∧
    (st.maintainAspect = true →
      (handleWidthChange v st).targetWidth = v ∧
      (handleWidthChange v st).targetHeight =
        ((round (v * (nd.2 : ℚ) / (nd.1 : ℚ)) : ℤ) : ℚ) ∧
      (handleHeightChange v st).targetHeight = v ∧
      (handleHeightChange v st).targetWidth =
        ((round (v * (nd.1 : ℚ) / (nd.2 : ℚ)) : ℤ) : ℚ)) := by
  constructor
  · intro hma
    unfold handleWidthChange handleHeightChange
    rw [hnd]
    simp [hma]
  · intro hma
    unfold handleWidthChange handleHeightChange
    rw [hnd]
    simp [hma, mul_div_assoc]

/-- Witness for C9 at a concrete input: `st1` (aspect lock on, 2×1 image) with
a new width of 3. -/
theorem dimension_handlers_respect_aspect_lock_witness :
    (handleWidthChange 3 st1).targetWidth = 3 ∧
    (handleWidthChange 3 st1).targetHeight =
      ((round ((3 : ℚ) * ((1 : Nat) : ℚ) / ((2 : Nat) : ℚ)) : ℤ) : ℚ) ∧
    (handleHeightChange 3 st1).targetHeight = 3 ∧
    (handleHeightChange 3 st1).targetWidth =
      ((round ((3 : ℚ) * ((2 : Nat) : ℚ) / ((1 : Nat) : ℚ)) : ℤ) : ℚ) :=
  (dimension_handlers_respect_aspect_lock st1 3 (2, 1) rfl).2 rfl

/-- C10: with an image loaded and a valid target, if `processImage` throws
then `handleProcess` leaves the stored processed state unchanged and only sets
the error message, and in every outcome `isProcessing` ends up false. -/
theorem handleProcess_atomic (run : ProcRequest → ProcOutcome) (st : UIState)
    (f : FileInfo) (nd : Nat × Nat)
    (hf : st.file = some f) (hnd : st.naturalDimensions = some nd)
    (htw : 0 < st.targetWidth) (hth : 0 < st.targetHeight) :
    (∀ m, run (buildRequest f st) = ProcOutcome.err m →
      handleProcess run st =
        ({ st with error := some m, isProcessing := false },
          some (buildRequest f st))) ∧
    (handleProcess run st).1.isProcessing = false ∧
    (∀ m, run (buildRequest f st) = ProcOutcome.err m →
      (handleProcess run st).1.processed = st.processed) := by
  have hng : ¬(st.targetWidth ≤ 0 ∨ st.targetHeight ≤ 0) := by
    push_neg
    exact ⟨htw, hth⟩
  have herr : ∀ m, run (buildRequest f st) = ProcOutcome.err m →
      handleProcess run st =
        ({ st with error := some m, isProcessing := false },
          some (buildRequest f st)) := by
    intro m hm
    unfold handleProcess
    rw [hf, hnd]
    dsimp only []
    rw [if_neg hng, hm]
  refine ⟨herr, ?_, ?_⟩
  · rcases hr : run (buildRequest f st) with r | m
    · unfold handleProcess
      rw [hf, hnd]
      dsimp only []
      rw [if_neg hng, hr]
    · rw [herr m hr]
  · intro m hm
    rw [herr m hm]

/-- Witness for C10 at a concrete input: `st1` with a throwing `processImage`. -/
theorem handleProcess_atomic_witness :
    (∀ m, runErr1 (buildRequest fileImg1 st1) = ProcOutcome.err m →
      handleProcess runErr1 st1 =
        ({ st1 with error := some m, isProcessing := false },
          some (buildRequest fileImg1 st1))) ∧
    (handleProcess runErr1 st1).1.isProcessing = false ∧
    (∀ m, runErr1 (buildRequest fileImg1 st1) = ProcOutcome.err m →
      (handleProcess runErr1 st1).1.processed = st1.processed) :=
  handleProcess_atomic runErr1 st1 fileImg1 (2, 1) rfl rfl (by decide) (by decide)

end ImgPipe
